import Mathlib

/-!
Shallow embedding of the PJRT CPU buffer lifecycle manager
(class `xla::AbstractTfrtCpuBuffer` of
`tensorflow/compiler/xla/pjrt/abstract_tfrt_cpu_buffer.h`).

The header supplies inline code for `MarkEventReadyOnExit`, the nested class
`DonationTransaction` (its move operations, destructor, `Commit` and `Abort`)
and `DropExternalReference`, together with the guarded state of the buffer:
`tracked_device_buffer_` (an owning pointer that is absent after deletion or
while the storage is held by a donation transaction),
`external_reference_counter_` (a C++ `int`, embedded as `Int`) and
`pending_donation_`.  The out-of-line bodies (`AcquireUsage`,
`AcquireExternalReference`, `AcquireDonation`, `CommitDonation`,
`AbortDonation`, `Delete`) are not in the provided sources; those definitions
are modelled from the specification, as stated on each one.

Mutation is embedded by explicit state passing: a member function becomes a
function from the buffer record (plus arguments) to the result paired with
the updated record.  Owning pointers (`std::unique_ptr`, `AsyncValueRef`)
become `Option`: `none` is the null state left behind by `std::move`, by
`reset()` or by deletion.  A `CHECK` failure (a fatal abort, not a
recoverable status) is embedded as the `none` result of an `Option`-valued
function.
-/

namespace Xla

/-- Status codes of the absl-style error space used by this interface.  Only
`FailedPrecondition` matters for the claims; the other constructors keep the
code meaningful (an error result names which code it carries). -/
inductive StatusCode where
  | FailedPrecondition
  | InvalidArgument
  | Unimplemented
  deriving DecidableEq, Repr

/-- Embedding of a `TrackedTfrtCpuDeviceBuffer` heap object: `addr` stands
for the identity of the object (the address that the raw pointer returned by
`AcquireUsage`, and the `unique_ptr` moved around by donations, refer to);
`usageEvents` records the usage events attached to the object so far (the
storage handle carries the completion events describing pending uses). -/
structure TrackedTfrtCpuDeviceBuffer where
  addr : Nat
  usageEvents : List Nat
  deriving DecidableEq, Repr

/-- The RAII guard of the header: holds an `AsyncValueRef<CpuEvent>`
(embedded as `Option Nat`, an event id; `none` is the null reference left
after the ref has been moved out). -/
structure MarkEventReadyOnExit where
  event_ : Option Nat
  deriving DecidableEq, Repr

/-- Destructor of `MarkEventReadyOnExit` (header, inline):
`if (event_) event_.SetStateConcrete();`.  The embedding returns the list of
events on which `SetStateConcrete` is called during destruction. -/
def MarkEventReadyOnExit.destructor (g : MarkEventReadyOnExit) : List Nat :=
  match g.event_ with
  | some e => [e]
  | none => []

/-- Member `Release` of `MarkEventReadyOnExit` (header, inline):
`return std::move(event_);` — hands the held reference to the caller and
leaves the guard with a null reference. -/
def MarkEventReadyOnExit.Release (g : MarkEventReadyOnExit) :
    Option Nat × MarkEventReadyOnExit :=
  (g.event_, ⟨none⟩)

/-- The guarded state of `AbstractTfrtCpuBuffer` (header, member list):
`tracked_device_buffer_` is the owning pointer to the storage,
`external_reference_counter_` the count of outstanding external references
(a C++ `int`), `pending_donation_` whether a donation is in flight. -/
structure AbstractTfrtCpuBuffer where
  tracked_device_buffer_ : Option TrackedTfrtCpuDeviceBuffer
  external_reference_counter_ : Int
  pending_donation_ : Bool
  deriving DecidableEq, Repr

/-- The nested helper class `DonationTransaction` (header, inline): owns the
extracted device buffer through a `unique_ptr`, embedded as an `Option`
(`none` models the null pointer of a moved-from or committed transaction).
The back pointer `buffer_` is embedded by passing the owning buffer record
explicitly to each member function. -/
structure DonationTransaction where
  device_buffer_ : Option TrackedTfrtCpuDeviceBuffer
  deriving DecidableEq, Repr

namespace AbstractTfrtCpuBuffer

/-- Modelled from the spec: the body of `AbstractTfrtCpuBuffer::AcquireUsage`
is not among the provided sources (the header has only its declaration).
Per the spec, it fails exactly when the buffer is Deleted or
`pending_donation` is true, and on success attaches the usage event to the
storage and returns the (unchanged) storage object.  The C++ function
signals failure by returning `nullptr`, embedded as `none`. -/
def AcquireUsage (b : AbstractTfrtCpuBuffer) (usage_event : Nat) :
    Option TrackedTfrtCpuDeviceBuffer × AbstractTfrtCpuBuffer :=
  match b.tracked_device_buffer_ with
  | none => (none, b)
  | some tdb =>
      if b.pending_donation_ then (none, b)
      else
        let tdb2 : TrackedTfrtCpuDeviceBuffer :=
          { tdb with usageEvents := tdb.usageEvents ++ [usage_event] }
        (some tdb2, { b with tracked_device_buffer_ := some tdb2 })

/-- Modelled from the spec: the body of
`AbstractTfrtCpuBuffer::AcquireExternalReference` is not among the provided
sources.  Per the spec it fails if the buffer is Deleted and (default
policy) while a donation is pending, and on success increments
`external_reference_counter_`. -/
def AcquireExternalReference (b : AbstractTfrtCpuBuffer) :
    Except StatusCode Unit × AbstractTfrtCpuBuffer :=
  match b.tracked_device_buffer_ with
  | none => (.error .FailedPrecondition, b)
  | some _ =>
      if b.pending_donation_ then (.error .FailedPrecondition, b)
      else
        (.ok (),
         { b with external_reference_counter_ := b.external_reference_counter_ + 1 })

/-- `AbstractTfrtCpuBuffer::DropExternalReference` (header, inline):
`CHECK_GT(external_reference_counter_, 0); --external_reference_counter_;`.
The `CHECK_GT` failure is a fatal abort, embedded as `none`. -/
def DropExternalReference (b : AbstractTfrtCpuBuffer) :
    Option AbstractTfrtCpuBuffer :=
  if 0 < b.external_reference_counter_ then
    some { b with
            external_reference_counter_ := b.external_reference_counter_ - 1 }
  else none

/-- Modelled from the spec: the body of
`AbstractTfrtCpuBuffer::AcquireDonation` is not among the provided sources
(the header has the declaration and its comment).  Per the spec it fails
with `FailedPrecondition` if the buffer is Deleted, a donation is already
pending, or `external_reference_counter_ > 0`; on success it moves the
storage out of the buffer into a fresh `DonationTransaction` and sets
`pending_donation_`. -/
def AcquireDonation (b : AbstractTfrtCpuBuffer) :
    Except StatusCode DonationTransaction × AbstractTfrtCpuBuffer :=
  match b.tracked_device_buffer_ with
  | none => (.error .FailedPrecondition, b)
  | some tdb =>
      if b.pending_donation_ then (.error .FailedPrecondition, b)
      else if 0 < b.external_reference_counter_ then
        (.error .FailedPrecondition, b)
      else
        (.ok ⟨some tdb⟩,
         { b with tracked_device_buffer_ := none, pending_donation_ := true })

/-- Modelled from the spec: the body of
`AbstractTfrtCpuBuffer::CommitDonation` is not among the provided sources.
The header comment states it commits the pending donation by setting
`pending_donation_` to false (the storage, already extracted by
`AcquireDonation`, is never returned: the buffer stays without storage,
i.e. Deleted).  Precondition (header comment): `pending_donation_` is true. -/
def CommitDonation (b : AbstractTfrtCpuBuffer) : AbstractTfrtCpuBuffer :=
  { b with pending_donation_ := false }

/-- Modelled from the spec: the body of
`AbstractTfrtCpuBuffer::AbortDonation` is not among the provided sources.
The header comment states it aborts the pending donation by returning the
donated buffer and setting `pending_donation_` to false.  Precondition
(header comment): `pending_donation_` is true. -/
def AbortDonation (b : AbstractTfrtCpuBuffer)
    (device_buffer : TrackedTfrtCpuDeviceBuffer) : AbstractTfrtCpuBuffer :=
  { b with tracked_device_buffer_ := some device_buffer,
           pending_donation_ := false }

/-- Modelled from the spec: the body of `AbstractTfrtCpuBuffer::Delete` is
not among the provided sources.  Per the spec, `Delete` waits until a
pending donation resolves (so in the sequential embedding it is only enabled
with no outstanding transaction) and then drops the storage, leaving the
buffer Deleted. -/
def Delete (b : AbstractTfrtCpuBuffer) : AbstractTfrtCpuBuffer :=
  { b with tracked_device_buffer_ := none }

end AbstractTfrtCpuBuffer

namespace DonationTransaction

/-- Private member `Abort` of `DonationTransaction` (header, inline):
`if (device_buffer_) buffer_->AbortDonation(std::move(device_buffer_));`.
Returns the transaction after the call (its pointer nulled when it fired)
and the updated owning buffer. -/
def Abort (t : DonationTransaction) (b : AbstractTfrtCpuBuffer) :
    DonationTransaction × AbstractTfrtCpuBuffer :=
  match t.device_buffer_ with
  | some db => (⟨none⟩, AbstractTfrtCpuBuffer.AbortDonation b db)
  | none => (t, b)

/-- Destructor of `DonationTransaction` (header, inline): `Abort();`. -/
def destructor (t : DonationTransaction) (b : AbstractTfrtCpuBuffer) :
    DonationTransaction × AbstractTfrtCpuBuffer :=
  t.Abort b

/-- Member `Commit` of `DonationTransaction` (header, inline):
`buffer_->CommitDonation(); device_buffer_.reset();`.  `Commit` is
rvalue-qualified (the transaction is consumed), so the embedding returns
only the updated buffer. -/
def Commit (_ : DonationTransaction) (b : AbstractTfrtCpuBuffer) :
    AbstractTfrtCpuBuffer :=
  AbstractTfrtCpuBuffer.CommitDonation b

/-- Move constructor of `DonationTransaction` (header: `= default`): the
new transaction takes the `unique_ptr`, the source is left with a null
pointer.  Returns (constructed transaction, moved-from source). -/
def moveCtor (src : DonationTransaction) :
    DonationTransaction × DonationTransaction :=
  (⟨src.device_buffer_⟩, ⟨none⟩)

/-- Move assignment of `DonationTransaction` (header, inline):
`Abort(); buffer_ = other.buffer_; device_buffer_ = std::move(other.device_buffer_);`.
Arguments: the assigned-to transaction, the buffer it currently points to,
and the source transaction.  Returns (assigned-to transaction after the
assignment, moved-from source, the destination's buffer after the
`Abort`). -/
def moveAssign (dst : DonationTransaction) (b : AbstractTfrtCpuBuffer)
    (src : DonationTransaction) :
    DonationTransaction × DonationTransaction × AbstractTfrtCpuBuffer :=
  let p := dst.Abort b
  (⟨src.device_buffer_⟩, ⟨none⟩, p.2)

end DonationTransaction

/-- Sequential composition of `AcquireUsage` calls, one per event of the
list: returns the list of returned pointers and the final buffer state. -/
def acquireUsageSeq (b : AbstractTfrtCpuBuffer) (events : List Nat) :
    List (Option TrackedTfrtCpuDeviceBuffer) × AbstractTfrtCpuBuffer :=
  match events with
  | [] => ([], b)
  | e :: rest =>
      let p := AbstractTfrtCpuBuffer.AcquireUsage b e
      let q := acquireUsageSeq p.2 rest
      (p.1 :: q.1, q.2)

/-- Whether an `AcquireUsage` result is a pointer to the heap object with
address `a` (pointer identity: the events attached to the object may have
grown, the object is the same). -/
def sameHandle (a : Nat) (r : Option TrackedTfrtCpuDeviceBuffer) : Bool :=
  match r with
  | some t => t.addr == a
  | none => false

/-- A configuration of the lifecycle state machine: the buffer record plus
the outstanding (unresolved) donation transaction, if any. -/
structure Config where
  buf : AbstractTfrtCpuBuffer
  txn : Option DonationTransaction
  deriving DecidableEq, Repr

/-- One step of the lifecycle state machine: a public operation of the
buffer, or the resolution (commit / drop) of the outstanding transaction.
Failing acquisitions are steps too (they return an error and leave state to
whatever the operation's embedding says). -/
inductive Step : Config → Config → Prop where
  | acquireUsage (c : Config) (e : Nat) :
      Step c ⟨(AbstractTfrtCpuBuffer.AcquireUsage c.buf e).2, c.txn⟩
  | acquireExternalReference (c : Config) :
      Step c ⟨(AbstractTfrtCpuBuffer.AcquireExternalReference c.buf).2, c.txn⟩
  | dropExternalReference (c : Config) (b2 : AbstractTfrtCpuBuffer)
      (h : AbstractTfrtCpuBuffer.DropExternalReference c.buf = some b2) :
      Step c ⟨b2, c.txn⟩
  | acquireDonationFail (c : Config) (s : StatusCode)
      (h : (AbstractTfrtCpuBuffer.AcquireDonation c.buf).1 = .error s) :
      Step c ⟨(AbstractTfrtCpuBuffer.AcquireDonation c.buf).2, c.txn⟩
  | acquireDonationOk (c : Config) (t : DonationTransaction)
      (h : (AbstractTfrtCpuBuffer.AcquireDonation c.buf).1 = .ok t)
      (hn : c.txn = none) :
      Step c ⟨(AbstractTfrtCpuBuffer.AcquireDonation c.buf).2, some t⟩
  | commitDonation (c : Config) (t : DonationTransaction)
      (h : c.txn = some t) :
      Step c ⟨DonationTransaction.Commit t c.buf, none⟩
  | dropTransaction (c : Config) (t : DonationTransaction)
      (h : c.txn = some t) :
      Step c ⟨(DonationTransaction.destructor t c.buf).2, none⟩
  | deleteBuffer (c : Config) (h : c.txn = none) :
      Step c ⟨AbstractTfrtCpuBuffer.Delete c.buf, none⟩

/-- Initial configuration: the buffer is constructed Live around a storage
handle, with no external references and no pending donation. -/
def InitConfig (db : TrackedTfrtCpuDeviceBuffer) : Config :=
  ⟨⟨some db, 0, false⟩, none⟩

/-- A configuration reachable from some initial configuration by the
lifecycle steps. -/
def Reachable (c : Config) : Prop :=
  ∃ db, Relation.ReflTransGen Step (InitConfig db) c

/-- The structural invariant of reachable configurations: the reference
count is non-negative, `pending_donation_` holds exactly while a transaction
is outstanding, an outstanding transaction holds a device buffer, and a
pending donation means the storage has been moved out of the buffer. -/
def Inv (c : Config) : Prop :=
  0 ≤ c.buf.external_reference_counter_ ∧
  c.buf.pending_donation_ = c.txn.isSome ∧
  (∀ t, c.txn = some t → t.device_buffer_.isSome = true) ∧
  (c.buf.pending_donation_ = true → c.buf.tracked_device_buffer_ = none)

/-- Modelled from the spec: the state machine of the buffer
(Live, DonationPending, Deleted); its states are not reified in the code,
which keeps only `tracked_device_buffer_` and `pending_donation_`. -/
inductive BufferPhase where
  | Live
  | DonationPending
  | Deleted
  deriving DecidableEq, Repr

/-- The phase of a configuration under the spec's state machine:
DonationPending while a donation is in flight, otherwise Live when storage
is present and Deleted when it is not. -/
def phase (c : Config) : BufferPhase :=
  if c.buf.pending_donation_ then .DonationPending
  else if c.buf.tracked_device_buffer_.isSome then .Live
  else .Deleted

/-- A configuration whose buffer is Deleted and has no outstanding
transaction: no storage, no pending donation, no transaction. -/
def DeletedCfg (c : Config) : Prop :=
  c.buf.tracked_device_buffer_ = none ∧
  c.buf.pending_donation_ = false ∧
  c.txn = none

/-- Whether the outstanding transaction of a configuration holds a device
buffer. -/
def txnHoldsStorage (c : Config) : Bool :=
  match c.txn with
  | some t => t.device_buffer_.isSome
  | none => false

/-- A concrete storage handle, for witnesses. -/
def sampleDb : TrackedTfrtCpuDeviceBuffer := ⟨0, []⟩

/-- A concrete Live buffer wrapping `sampleDb`, for witnesses. -/
def sampleLive : AbstractTfrtCpuBuffer := ⟨some sampleDb, 0, false⟩

/-- The configuration after acquiring one external reference on a fresh
buffer: count 1, still Live. -/
def sampleRef : Config := ⟨⟨some sampleDb, 1, false⟩, none⟩

/-- The configuration after a successful `AcquireDonation` on a fresh
buffer: storage moved into the transaction, `pending_donation_` set. -/
def samplePending : Config := ⟨⟨none, 0, true⟩, some ⟨some sampleDb⟩⟩

/-- The configuration after committing that donation: storage gone for
good, no pending donation, no transaction. -/
def sampleCommitted : Config :=
  ⟨DonationTransaction.Commit ⟨some sampleDb⟩ ⟨none, 0, true⟩, none⟩

/-- Case analysis of `AcquireDonation`: either it fails with
`FailedPrecondition` leaving the buffer untouched (exactly when the buffer
is Deleted, a donation is pending, or external references are outstanding),
or it succeeds, moving the storage into the returned transaction and
setting `pending_donation_`. -/
theorem acquireDonation_cases (b : AbstractTfrtCpuBuffer) :
    (AbstractTfrtCpuBuffer.AcquireDonation b = (.error .FailedPrecondition, b) ∧
      (b.tracked_device_buffer_ = none ∨ b.pending_donation_ = true ∨
        0 < b.external_reference_counter_)) ∨
    (∃ tdb, b.tracked_device_buffer_ = some tdb ∧ b.pending_donation_ = false ∧
      b.external_reference_counter_ ≤ 0 ∧
      AbstractTfrtCpuBuffer.AcquireDonation b =
        (.ok ⟨some tdb⟩,
         { b with tracked_device_buffer_ := none, pending_donation_ := true })) := by
  rcases b with ⟨st, n, p⟩
  cases st with
  | none =>
      left
      exact ⟨rfl, Or.inl rfl⟩
  | some tdb =>
      cases p with
      | true =>
          left
          exact ⟨rfl, Or.inr (Or.inl rfl)⟩
      | false =>
          by_cases hn : 0 < n
          · left
            refine ⟨?_, Or.inr (Or.inr hn)⟩
            simp [AbstractTfrtCpuBuffer.AcquireDonation, hn]
          · right
            refine ⟨tdb, rfl, rfl, by show n ≤ 0; omega, ?_⟩
            simp [AbstractTfrtCpuBuffer.AcquireDonation, hn]

/-- On a Deleted buffer (no storage) `AcquireUsage` fails and leaves the
buffer untouched. -/
theorem acquireUsage_deleted (b : AbstractTfrtCpuBuffer) (e : Nat)
    (h : b.tracked_device_buffer_ = none) :
    AbstractTfrtCpuBuffer.AcquireUsage b e = (none, b) := by
  simp [AbstractTfrtCpuBuffer.AcquireUsage, h]

/-- On a Deleted buffer (no storage) `AcquireDonation` fails and leaves the
buffer untouched. -/
theorem acquireDonation_deleted (b : AbstractTfrtCpuBuffer)
    (h : b.tracked_device_buffer_ = none) :
    AbstractTfrtCpuBuffer.AcquireDonation b = (.error .FailedPrecondition, b) := by
  simp [AbstractTfrtCpuBuffer.AcquireDonation, h]

/-- On a Deleted buffer (no storage) `AcquireExternalReference` fails and
leaves the buffer untouched. -/
theorem acquireExternalReference_deleted (b : AbstractTfrtCpuBuffer)
    (h : b.tracked_device_buffer_ = none) :
    AbstractTfrtCpuBuffer.AcquireExternalReference b =
      (.error .FailedPrecondition, b) := by
  simp [AbstractTfrtCpuBuffer.AcquireExternalReference, h]

/-- On a Live buffer `AcquireUsage` succeeds: it returns the storage object
with the usage event attached and stores the same object back. -/
theorem acquireUsage_live (b : AbstractTfrtCpuBuffer)
    (tdb : TrackedTfrtCpuDeviceBuffer) (e : Nat)
    (h1 : b.tracked_device_buffer_ = some tdb)
    (h2 : b.pending_donation_ = false) :
    AbstractTfrtCpuBuffer.AcquireUsage b e =
      (some ({ tdb with usageEvents := tdb.usageEvents ++ [e] }),
       { b with
          tracked_device_buffer_ := some ({ tdb with usageEvents := tdb.usageEvents ++ [e] }) }) := by
  simp [AbstractTfrtCpuBuffer.AcquireUsage, h1, h2]

/-- The invariant holds in every initial configuration. -/
theorem inv_init (db : TrackedTfrtCpuDeviceBuffer) : Inv (InitConfig db) :=
  ⟨le_refl 0, rfl, fun _ ht => Option.noConfusion ht, fun h => Bool.noConfusion h⟩

/-- The invariant is preserved by every step of the state machine. -/
theorem inv_step : ∀ {c c2 : Config}, Inv c → Step c c2 → Inv c2 := by
  rintro ⟨⟨st, n, p⟩, tx⟩ c2 ⟨h0, h1, h2, h3⟩ hs
  have h0n : (0 : Int) ≤ n := h0
  have h1n : p = tx.isSome := h1
  have h3n : p = true → st = none := h3
  cases hs with
  | acquireUsage e =>
      cases st with
      | none => exact ⟨h0, h1, h2, h3⟩
      | some tdb =>
          cases p with
          | true => exact ⟨h0, h1, h2, h3⟩
          | false => exact ⟨h0n, h1n, h2, fun hc => Bool.noConfusion hc⟩
  | acquireExternalReference =>
      cases st with
      | none => exact ⟨h0, h1, h2, h3⟩
      | some tdb =>
          cases p with
          | true => exact ⟨h0, h1, h2, h3⟩
          | false =>
              exact ⟨show (0 : Int) ≤ n + 1 by omega, h1n, h2,
                fun hc => Bool.noConfusion hc⟩
  | dropExternalReference b2 h =>
      by_cases hlt : 0 < n
      · have h2eq : b2 = AbstractTfrtCpuBuffer.mk st (n - 1) p := by
          have := h
          simp only [AbstractTfrtCpuBuffer.DropExternalReference] at this
          rw [if_pos (show 0 < (AbstractTfrtCpuBuffer.mk st n p).external_reference_counter_ from hlt)] at this
          injection this with h4
          exact h4.symm
        subst h2eq
        exact ⟨show (0 : Int) ≤ n - 1 by omega, h1n, h2, h3n⟩
      · exfalso
        simp only [AbstractTfrtCpuBuffer.DropExternalReference] at h
        rw [if_neg (show ¬ 0 < (AbstractTfrtCpuBuffer.mk st n p).external_reference_counter_ from hlt)] at h
        exact Option.noConfusion h
  | acquireDonationFail s h =>
      rcases acquireDonation_cases ⟨st, n, p⟩ with ⟨heq, _⟩ | ⟨tdb, hst, hp, hcnt, heq⟩
      · rw [heq]
        exact ⟨h0, h1, h2, h3⟩
      · rw [heq] at h
        simp at h
  | acquireDonationOk t h hn =>
      rcases acquireDonation_cases ⟨st, n, p⟩ with ⟨heq, _⟩ | ⟨tdb, hst, hp, hcnt, heq⟩
      · rw [heq] at h
        simp at h
      · rw [heq] at h ⊢
        have ht : t = DonationTransaction.mk (some tdb) := by
          simpa using h.symm
        subst ht
        exact ⟨h0n, rfl, fun t2 ht2 => by cases ht2; rfl, fun _ => rfl⟩
  | commitDonation t h =>
      subst h
      exact ⟨h0n, rfl, fun t2 ht2 => Option.noConfusion ht2,
        fun hc => Bool.noConfusion hc⟩
  | dropTransaction t h =>
      subst h
      rcases t with ⟨tdev⟩
      have hdb : tdev.isSome = true := h2 ⟨tdev⟩ rfl
      obtain ⟨db, hdd⟩ := Option.isSome_iff_exists.mp hdb
      subst hdd
      exact ⟨h0n, rfl, fun t2 ht2 => Option.noConfusion ht2,
        fun hc => Bool.noConfusion hc⟩
  | deleteBuffer h =>
      subst h
      have hp : p = false := by simpa using h1n
      subst hp
      exact ⟨h0n, rfl, fun t2 ht2 => Option.noConfusion ht2, fun _ => rfl⟩

/-- Every reachable configuration satisfies the invariant. -/
theorem inv_reachable {c : Config} (h : Reachable c) : Inv c := by
  obtain ⟨db, hstar⟩ := h
  induction hstar with
  | refl => exact inv_init db
  | tail _ hbc ih => exact inv_step ih hbc

/-- A Deleted configuration stays Deleted across every step. -/
theorem deleted_step : ∀ {c c2 : Config}, DeletedCfg c → Step c c2 → DeletedCfg c2 := by
  rintro ⟨b, tx⟩ c2 ⟨hst, hp, htx⟩ hs
  cases hs with
  | acquireUsage e =>
      rw [acquireUsage_deleted b e hst]
      exact ⟨hst, hp, htx⟩
  | acquireExternalReference =>
      rw [acquireExternalReference_deleted b hst]
      exact ⟨hst, hp, htx⟩
  | dropExternalReference b2 h =>
      simp only [AbstractTfrtCpuBuffer.DropExternalReference] at h
      split at h
      · cases h
        exact ⟨hst, hp, htx⟩
      · cases h
  | acquireDonationFail s h =>
      rw [acquireDonation_deleted b hst]
      exact ⟨hst, hp, htx⟩
  | acquireDonationOk t h hn =>
      rw [acquireDonation_deleted b hst] at h
      simp at h
  | commitDonation t h =>
      rw [htx] at h
      cases h
  | dropTransaction t h =>
      rw [htx] at h
      cases h
  | deleteBuffer h =>
      exact ⟨rfl, hp, rfl⟩

/-- A Deleted configuration stays Deleted across every run of steps. -/
theorem deleted_star {c c2 : Config} (hd : DeletedCfg c)
    (hs : Relation.ReflTransGen Step c c2) : DeletedCfg c2 := by
  induction hs with
  | refl => exact hd
  | tail _ hbc ih => exact deleted_step ih hbc

/-- C1: `AcquireDonation` fails with FailedPrecondition whenever the buffer
is Deleted (no storage), a donation is already pending, or the external
reference count is positive; on success it extracts the storage out of the
buffer (the `tracked_device_buffer_` field becomes absent), sets
`pending_donation_`, and returns a transaction holding the extracted
handle. -/
theorem C1_acquire_donation_contract (b : AbstractTfrtCpuBuffer)
    (tdb : TrackedTfrtCpuDeviceBuffer) :
    ((b.tracked_device_buffer_ = none ∨ b.pending_donation_ = true ∨
        0 < b.external_reference_counter_) →
      AbstractTfrtCpuBuffer.AcquireDonation b = (.error .FailedPrecondition, b)) ∧
    (b.tracked_device_buffer_ = some tdb → b.pending_donation_ = false →
      b.external_reference_counter_ ≤ 0 →
      AbstractTfrtCpuBuffer.AcquireDonation b =
        (.ok ⟨some tdb⟩,
         { b with tracked_device_buffer_ := none, pending_donation_ := true })) := by
  rcases acquireDonation_cases b with ⟨heq, hwhy⟩ | ⟨tdb2, hst, hp, hcnt, heq⟩
  · refine ⟨fun _ => heq, fun hst hp hcnt => ?_⟩
    rcases hwhy with h | h | h
    · rw [hst] at h
      exact Option.noConfusion h
    · rw [hp] at h
      exact Bool.noConfusion h
    · omega
  · constructor
    · intro hwhy
      rcases hwhy with h | h | h
      · rw [hst] at h
        exact Option.noConfusion h
      · rw [h] at hp
        exact Bool.noConfusion hp
      · omega
    · intro hst2 hp2 hcnt2
      rw [hst] at hst2
      injection hst2 with h5
      subst h5
      exact heq

/-- C4: `AcquireUsage` fails (returns the null pointer) exactly when the
buffer is Deleted or a donation is pending; the external reference count
has no influence on the outcome (replacing it by any value gives the same
success or failure). -/
theorem C4_acquire_usage_failure_condition (b : AbstractTfrtCpuBuffer)
    (e : Nat) (k : Int) :
    ((AbstractTfrtCpuBuffer.AcquireUsage b e).1 = none ↔
      (b.tracked_device_buffer_ = none ∨ b.pending_donation_ = true)) ∧
    ((AbstractTfrtCpuBuffer.AcquireUsage
        { b with external_reference_counter_ := k } e).1 = none ↔
      (AbstractTfrtCpuBuffer.AcquireUsage b e).1 = none) := by
  rcases b with ⟨st, n, p⟩
  cases st <;> cases p <;> simp [AbstractTfrtCpuBuffer.AcquireUsage]

/-- C7: the scoped signal guard signals its completion event on destruction
if and only if it still holds the event (exactly one `SetStateConcrete`
call when held, none otherwise); `Release` hands the event to the caller
without signaling, and a guard destroyed after `Release` signals nothing. -/
theorem C7_guard_signals_iff_held (e : Nat) (g : MarkEventReadyOnExit) :
    (g.event_ = some e → g.destructor = [e]) ∧
    (g.event_ = none → g.destructor = []) ∧
    (g.Release).1 = g.event_ ∧
    (g.Release).2.event_ = none ∧
    (g.Release).2.destructor = [] := by
  rcases g with ⟨ev⟩
  exact ⟨fun h => by cases h; rfl, fun h => by cases h; rfl, rfl, rfl, rfl⟩

/-- C9: whenever `AcquireUsage`, `AcquireDonation` or
`AcquireExternalReference` fails (null pointer or error status), the buffer
record after the call is exactly the record before the call — no partial
mutation on failure. -/
theorem C9_failure_preserves_state (b : AbstractTfrtCpuBuffer) (e : Nat)
    (s1 s2 : StatusCode) :
    ((AbstractTfrtCpuBuffer.AcquireUsage b e).1 = none →
      (AbstractTfrtCpuBuffer.AcquireUsage b e).2 = b) ∧
    ((AbstractTfrtCpuBuffer.AcquireDonation b).1 = .error s1 →
      (AbstractTfrtCpuBuffer.AcquireDonation b).2 = b) ∧
    ((AbstractTfrtCpuBuffer.AcquireExternalReference b).1 = .error s2 →
      (AbstractTfrtCpuBuffer.AcquireExternalReference b).2 = b) := by
  rcases b with ⟨st, n, p⟩
  cases st with
  | none => exact ⟨fun _ => rfl, fun _ => rfl, fun _ => rfl⟩
  | some tdb =>
      cases p with
      | true => exact ⟨fun _ => rfl, fun _ => rfl, fun _ => rfl⟩
      | false =>
          by_cases hn : 0 < n
          · refine ⟨fun h => Option.noConfusion h, fun _ => ?_,
              fun h => Except.noConfusion h⟩
            simp [AbstractTfrtCpuBuffer.AcquireDonation, hn]
          · refine ⟨fun h => Option.noConfusion h, fun h => ?_,
              fun h => Except.noConfusion h⟩
            rw [show (AbstractTfrtCpuBuffer.AcquireDonation
                (AbstractTfrtCpuBuffer.mk (some tdb) n false)).1 =
                  .ok ⟨some tdb⟩ from by
                simp [AbstractTfrtCpuBuffer.AcquireDonation, hn]] at h
            exact Except.noConfusion h

/-- C10: a donation is resolved at most once even across moves of the
transaction object: the move constructor transfers the handle and leaves
the source empty, destroying an empty (moved-from) transaction performs no
abort and leaves its buffer unchanged, and move assignment onto a
transaction that still holds a donation first aborts that destination
donation (returning its handle to the destination's buffer) before taking
over the source's handle. -/
theorem C10_transaction_move_semantics (src : DonationTransaction)
    (db : TrackedTfrtCpuDeviceBuffer) (b : AbstractTfrtCpuBuffer) :
    ((DonationTransaction.moveCtor src).1.device_buffer_ = src.device_buffer_ ∧
      (DonationTransaction.moveCtor src).2.device_buffer_ = none) ∧
    DonationTransaction.destructor ⟨none⟩ b = (⟨none⟩, b) ∧
    DonationTransaction.moveAssign ⟨some db⟩ b src =
      (⟨src.device_buffer_⟩, ⟨none⟩, AbstractTfrtCpuBuffer.AbortDonation b db) ∧
    DonationTransaction.moveAssign ⟨none⟩ b src =
      (⟨src.device_buffer_⟩, ⟨none⟩, b) :=
  ⟨⟨rfl, rfl⟩, rfl, rfl, rfl⟩

/-- C2: after a donation transaction's `Commit` the buffer is Deleted
permanently: in every configuration reachable after the commit the buffer
still has no storage and no pending donation, and `AcquireUsage`,
`AcquireDonation` and `AcquireExternalReference` all fail on it. -/
theorem C2_commit_is_terminal_delete (b : AbstractTfrtCpuBuffer)
    (t : DonationTransaction) (c2 : Config) (e : Nat)
    (hpend : b.pending_donation_ = true)
    (hstor : b.tracked_device_buffer_ = none)
    (hstar : Relation.ReflTransGen Step ⟨DonationTransaction.Commit t b, none⟩ c2) :
    c2.buf.tracked_device_buffer_ = none ∧
    c2.buf.pending_donation_ = false ∧
    c2.txn = none ∧
    (AbstractTfrtCpuBuffer.AcquireUsage c2.buf e).1 = none ∧
    (AbstractTfrtCpuBuffer.AcquireDonation c2.buf).1 = .error .FailedPrecondition ∧
    (AbstractTfrtCpuBuffer.AcquireExternalReference c2.buf).1 =
      .error .FailedPrecondition := by
  have hd0 : DeletedCfg ⟨DonationTransaction.Commit t b, none⟩ := ⟨hstor, rfl, rfl⟩
  obtain ⟨hst2, hp2, htx2⟩ := deleted_star hd0 hstar
  refine ⟨hst2, hp2, htx2, ?_, ?_, ?_⟩
  · rw [acquireUsage_deleted c2.buf e hst2]
  · rw [acquireDonation_deleted c2.buf hst2]
  · rw [acquireExternalReference_deleted c2.buf hst2]

/-- Witness for C2 at a concrete committed donation. -/
theorem C2_commit_is_terminal_delete_witness :
    sampleCommitted.buf.tracked_device_buffer_ = none ∧
    sampleCommitted.buf.pending_donation_ = false ∧
    sampleCommitted.txn = none ∧
    (AbstractTfrtCpuBuffer.AcquireUsage sampleCommitted.buf 0).1 = none ∧
    (AbstractTfrtCpuBuffer.AcquireDonation sampleCommitted.buf).1 =
      .error .FailedPrecondition ∧
    (AbstractTfrtCpuBuffer.AcquireExternalReference sampleCommitted.buf).1 =
      .error .FailedPrecondition :=
  C2_commit_is_terminal_delete ⟨none, 0, true⟩ ⟨some sampleDb⟩ sampleCommitted 0
    rfl rfl Relation.ReflTransGen.refl

/-- C3: a successful `AcquireDonation` whose transaction is then dropped
without `Commit` (the destructor aborts the donation) restores the buffer
to exactly its previous record — the identical storage handle is back and
`pending_donation_` is cleared. -/
theorem C3_drop_without_commit_restores (b b2 : AbstractTfrtCpuBuffer)
    (tdb : TrackedTfrtCpuDeviceBuffer) (t : DonationTransaction)
    (h1 : b.tracked_device_buffer_ = some tdb)
    (h2 : b.pending_donation_ = false)
    (h3 : b.external_reference_counter_ ≤ 0)
    (hacq : AbstractTfrtCpuBuffer.AcquireDonation b = (.ok t, b2)) :
    t.device_buffer_ = some tdb ∧
    b2.tracked_device_buffer_ = none ∧
    b2.pending_donation_ = true ∧
    DonationTransaction.destructor t b2 = (⟨none⟩, b) := by
  rcases b with ⟨st, n, p⟩
  have e1 : st = some tdb := h1
  have e2 : p = false := h2
  subst e1
  subst e2
  rcases acquireDonation_cases ⟨some tdb, n, false⟩ with
    ⟨heq, hwhy⟩ | ⟨tdb2, hst, hp, hcnt, heq⟩
  · rcases hwhy with h | h | h
    · exact Option.noConfusion h
    · exact Bool.noConfusion h
    · omega
  · have e3 : some tdb = some tdb2 := hst
    injection e3 with e4
    subst e4
    rw [heq] at hacq
    injection hacq with hfst hsnd
    injection hfst with h6
    subst h6
    subst hsnd
    exact ⟨rfl, rfl, rfl, rfl⟩

/-- Witness for C3 at a concrete live buffer. -/
theorem C3_drop_without_commit_restores_witness :
    (DonationTransaction.mk (some sampleDb)).device_buffer_ = some sampleDb ∧
    (AbstractTfrtCpuBuffer.mk none 0 true).tracked_device_buffer_ = none ∧
    (AbstractTfrtCpuBuffer.mk none 0 true).pending_donation_ = true ∧
    DonationTransaction.destructor ⟨some sampleDb⟩ ⟨none, 0, true⟩ =
      (⟨none⟩, sampleLive) :=
  C3_drop_without_commit_restores sampleLive ⟨none, 0, true⟩ sampleDb
    ⟨some sampleDb⟩ rfl rfl (le_refl 0) rfl

/-- Counterexample to C5 as stated: the configuration reached by a single
successful `AcquireDonation` from a fresh buffer has its storage field
absent while its phase is DonationPending, not Deleted, so storage absence
is not equivalent to being in the Deleted state. -/
theorem C5_counterexample_pending_not_deleted :
    Reachable samplePending ∧
    ¬ (samplePending.buf.tracked_device_buffer_ = none ↔
        phase samplePending = BufferPhase.Deleted) := by
  constructor
  · exact ⟨sampleDb, Relation.ReflTransGen.single
      (show Step (InitConfig sampleDb) samplePending from
        Step.acquireDonationOk (InitConfig sampleDb) ⟨some sampleDb⟩ rfl rfl)⟩
  · decide

/-- C5 (amended): in every reachable configuration the storage field is
absent exactly when the buffer is Deleted or a donation is pending, and
while a donation is pending the storage is held by the outstanding
transaction. -/
theorem C5_storage_absent_iff_deleted_or_pending (c : Config)
    (hr : Reachable c) :
    (c.buf.tracked_device_buffer_ = none ↔
      (phase c = BufferPhase.Deleted ∨ phase c = BufferPhase.DonationPending)) ∧
    (phase c = BufferPhase.DonationPending → txnHoldsStorage c = true) := by
  obtain ⟨h0, h1, h2, h3⟩ := inv_reachable hr
  rcases c with ⟨⟨st, n, p⟩, tx⟩
  have h1n : p = tx.isSome := h1
  have h3n : p = true → st = none := h3
  cases p with
  | true =>
      have hst : st = none := h3n rfl
      subst hst
      constructor
      · simp [phase]
      · intro _
        obtain ⟨t2, ht2⟩ := Option.isSome_iff_exists.mp h1n.symm
        subst ht2
        have h5 := h2 t2 rfl
        simp [txnHoldsStorage, h5]
  | false =>
      cases st with
      | none => simp [phase, txnHoldsStorage]
      | some tdb => simp [phase]

/-- Witness for the amended C5 at the initial configuration. -/
theorem C5_storage_absent_iff_deleted_or_pending_witness :
    ((InitConfig sampleDb).buf.tracked_device_buffer_ = none ↔
      (phase (InitConfig sampleDb) = BufferPhase.Deleted ∨
        phase (InitConfig sampleDb) = BufferPhase.DonationPending)) ∧
    (phase (InitConfig sampleDb) = BufferPhase.DonationPending →
      txnHoldsStorage (InitConfig sampleDb) = true) :=
  C5_storage_absent_iff_deleted_or_pending (InitConfig sampleDb)
    ⟨sampleDb, Relation.ReflTransGen.refl⟩

/-- C6: in every reachable configuration the external reference count is
non-negative; `DropExternalReference` on a positive count decrements it by
exactly one (changing nothing else), and on a zero count it is the fatal
`CHECK_GT` abort (`none`), not a recoverable status. -/
theorem C6_drop_external_reference_contract (c : Config) (hr : Reachable c) :
    0 ≤ c.buf.external_reference_counter_ ∧
    (AbstractTfrtCpuBuffer.DropExternalReference c.buf = none ↔
      c.buf.external_reference_counter_ = 0) ∧
    (0 < c.buf.external_reference_counter_ →
      AbstractTfrtCpuBuffer.DropExternalReference c.buf =
        some ({ c.buf with
          external_reference_counter_ := c.buf.external_reference_counter_ - 1 })) := by
  have h0 : 0 ≤ c.buf.external_reference_counter_ := (inv_reachable hr).1
  refine ⟨h0, ⟨?_, ?_⟩, ?_⟩
  · intro h
    by_contra hne
    have hlt : 0 < c.buf.external_reference_counter_ := by omega
    simp [AbstractTfrtCpuBuffer.DropExternalReference, hlt] at h
  · intro h
    simp [AbstractTfrtCpuBuffer.DropExternalReference, h]
  · intro hlt
    simp [AbstractTfrtCpuBuffer.DropExternalReference, hlt]

/-- Witness for C6 at a reachable configuration with one outstanding
external reference. -/
theorem C6_drop_external_reference_contract_witness :
    0 ≤ sampleRef.buf.external_reference_counter_ ∧
    (AbstractTfrtCpuBuffer.DropExternalReference sampleRef.buf = none ↔
      sampleRef.buf.external_reference_counter_ = 0) ∧
    (0 < sampleRef.buf.external_reference_counter_ →
      AbstractTfrtCpuBuffer.DropExternalReference sampleRef.buf =
        some ({ sampleRef.buf with
          external_reference_counter_ := sampleRef.buf.external_reference_counter_ - 1 })) :=
  C6_drop_external_reference_contract sampleRef
    ⟨sampleDb, Relation.ReflTransGen.single
      (show Step (InitConfig sampleDb) sampleRef from
        Step.acquireExternalReference (InitConfig sampleDb))⟩

/-- C8: on a Live buffer every call of a sequence of `AcquireUsage` calls
(each with its own usage event) succeeds and returns a pointer to the
identical storage object (same address), and the buffer stays Live with the
same storage, no pending donation and an unchanged reference count. -/
theorem C8_repeated_acquire_usage (b : AbstractTfrtCpuBuffer)
    (tdb : TrackedTfrtCpuDeviceBuffer) (events : List Nat)
    (h1 : b.tracked_device_buffer_ = some tdb)
    (h2 : b.pending_donation_ = false) :
    (acquireUsageSeq b events).1.all (sameHandle tdb.addr) = true ∧
    Option.map TrackedTfrtCpuDeviceBuffer.addr
      (acquireUsageSeq b events).2.tracked_device_buffer_ = some tdb.addr ∧
    (acquireUsageSeq b events).2.pending_donation_ = false ∧
    (acquireUsageSeq b events).2.external_reference_counter_ =
      b.external_reference_counter_ := by
  induction events generalizing b tdb with
  | nil =>
      refine ⟨rfl, ?_, h2, rfl⟩
      show Option.map TrackedTfrtCpuDeviceBuffer.addr b.tracked_device_buffer_ =
        some tdb.addr
      rw [h1]
      rfl
  | cons e rest ih =>
      have hstep := acquireUsage_live b tdb e h1 h2
      have hrec :
          acquireUsageSeq b (e :: rest) =
            ((AbstractTfrtCpuBuffer.AcquireUsage b e).1 ::
              (acquireUsageSeq (AbstractTfrtCpuBuffer.AcquireUsage b e).2 rest).1,
             (acquireUsageSeq (AbstractTfrtCpuBuffer.AcquireUsage b e).2 rest).2) :=
        rfl
      rw [hrec, hstep]
      have ihr := ih ({ b with
        tracked_device_buffer_ :=
          some ({ tdb with usageEvents := tdb.usageEvents ++ [e] }) })
        ({ tdb with usageEvents := tdb.usageEvents ++ [e] }) rfl h2
      refine ⟨?_, ihr.2.1, ihr.2.2.1, ihr.2.2.2⟩
      show (sameHandle tdb.addr
          (some ({ tdb with usageEvents := tdb.usageEvents ++ [e] })) &&
        (acquireUsageSeq ({ b with
          tracked_device_buffer_ :=
            some ({ tdb with usageEvents := tdb.usageEvents ++ [e] }) })
          rest).1.all (sameHandle tdb.addr)) = true
      rw [Bool.and_eq_true]
      exact ⟨by simp [sameHandle], ihr.1⟩

/-- Witness for C8 at a concrete live buffer and two usage events. -/
theorem C8_repeated_acquire_usage_witness :
    (acquireUsageSeq sampleLive [1, 2]).1.all (sameHandle sampleDb.addr) = true ∧
    Option.map TrackedTfrtCpuDeviceBuffer.addr
      (acquireUsageSeq sampleLive [1, 2]).2.tracked_device_buffer_ =
        some sampleDb.addr ∧
    (acquireUsageSeq sampleLive [1, 2]).2.pending_donation_ = false ∧
    (acquireUsageSeq sampleLive [1, 2]).2.external_reference_counter_ =
      sampleLive.external_reference_counter_ :=
  C8_repeated_acquire_usage sampleLive sampleDb [1, 2] rfl rfl

end Xla
